import Mathlib

/-!
Shallow embedding of the credential-resolution / client-configuration
pipeline of `terraform-provider-xac` (`xac/provider.go`), centred on
`providerConfigure`.  External collaborators (the schema engine, the STS
client, the rate limiter, the Go standard library functions `os.Getenv`,
`strconv.Atoi` and `url.QueryEscape`) are modelled explicitly: the
environment variable is a `String` parameter (`""` means absent, as with
`os.Getenv`), the token-exchange network call is an oracle function
passed in, and the rate-limiter check and the exchange dispatch are
recorded as an event trace so that ordering and absence of calls are
observable.
-/

namespace Xac

/-- A TencentCloud token credential, as built by `common.NewTokenCredential`:
the (secretId, secretKey, token) triple. -/
structure Credential where
  secretId : String
  secretKey : String
  token : String
deriving DecidableEq, Repr

/-- The fields of `connectivity.TencentCloudClient` that `providerConfigure`
sets: credential, region, protocol, domain. -/
structure ApiV3Conn where
  credential : Credential
  region : String
  protocol : String
  domain : String
deriving DecidableEq, Repr

/-- `TencentCloudClient` as defined in `provider.go`: a wrapper holding the
`apiV3Conn` connection. -/
structure TencentCloudClient where
  apiV3Conn : ApiV3Conn
deriving DecidableEq, Repr

/-- One entry of the `assume_role` set, with the four fields read by
`providerConfigure` (`role_arn`, `session_name`, `session_duration`,
`policy`).  `session_duration` is a Go `int`, modelled as `Int`. -/
structure AssumeRoleBlock where
  role_arn : String
  session_name : String
  session_duration : Int
  policy : String
deriving DecidableEq, Repr

instance : Inhabited AssumeRoleBlock := ⟨⟨"", "", 0, ""⟩⟩

/-- The configuration values `providerConfigure` reads from the schema
`ResourceData`: the six top-level fields plus the `assume_role` set,
whose `.List()` is modelled as a `List AssumeRoleBlock`. -/
structure ResourceData where
  secret_id : String
  secret_key : String
  security_token : String
  region : String
  protocol : String
  domain : String
  assume_role : List AssumeRoleBlock
deriving DecidableEq, Repr

/-- The `sts.AssumeRoleRequest` fields set by `providerConfigure`.  The Go
struct holds pointers (`*string`, `*uint64`), nil when unset, modelled as
`Option`; the `uint64` `DurationSeconds` is a `Nat` (reduced mod 2^64 at
the conversion site). -/
structure AssumeRoleRequest where
  RoleArn : Option String
  RoleSessionName : Option String
  DurationSeconds : Option Nat
  Policy : Option String
deriving DecidableEq, Repr

/-- `sts.NewAssumeRoleRequest()`: all request fields start nil. -/
def NewAssumeRoleRequest : AssumeRoleRequest :=
  { RoleArn := none, RoleSessionName := none, DurationSeconds := none, Policy := none }

/-- `request.GetAction()` for an `sts.AssumeRoleRequest`: the SDK returns the
action name `"AssumeRole"` with which the request was initialised. -/
def AssumeRoleRequest.GetAction (_ : AssumeRoleRequest) : String := "AssumeRole"

/-- The `Credentials` part of a successful `AssumeRole` response
(`response.Response.Credentials`): temporary id, temporary key, token. -/
structure STSCredentials where
  TmpSecretId : String
  TmpSecretKey : String
  Token : String
deriving DecidableEq, Repr

/-- Errors `providerConfigure` can return: a `strconv.Atoi` failure
(syntax or 64-bit range) on the environment override, or an error from
the `AssumeRole` exchange call. -/
inductive GoError where
  | atoiSyntaxErr (s : String)
  | atoiRange (s : String)
  | exchange (msg : String)
deriving DecidableEq, Repr

/-- Observable side effects of `providerConfigure`, in order: the
`ratelimit.Check(action)` pre-flight gate and the dispatch of the
`AssumeRole` exchange network call. -/
inductive Event where
  | ratelimitCheck (action : String)
  | exchangeCall (req : AssumeRoleRequest)
deriving DecidableEq, Repr

/-- Go `strconv.Atoi`: an optional `+`/`-` sign followed by at least one
decimal digit, rejecting anything else as a syntax error and values
outside the 64-bit `int` range as a range error. -/
def goAtoi (s : String) : Except GoError Int :=
  let cs := s.data
  let signDigits : Bool × List Char :=
    match cs with
    | '-' :: rest => (true, rest)
    | '+' :: rest => (false, rest)
    | _ => (false, cs)
  let neg := signDigits.1
  let ds := signDigits.2
  if ds.isEmpty then Except.error (GoError.atoiSyntaxErr s)
  else if ds.all (fun c => '0' ≤ c && c ≤ '9') then
    let n : Nat := ds.foldl (fun acc c => acc * 10 + (c.toNat - 48)) 0
    let v : Int := if neg then -(n : Int) else (n : Int)
    if v < -(2 ^ 63) || v > 2 ^ 63 - 1 then Except.error (GoError.atoiRange s)
    else Except.ok v
  else Except.error (GoError.atoiSyntaxErr s)

/-- Go conversion `uint64(i)` of a (64-bit) `int` value: reduction
modulo 2^64, so negative values wrap around. -/
def uint64OfInt (i : Int) : Nat := (i % (2 ^ 64 : Int)).toNat

/-- The hexadecimal digit table `upperhex = "0123456789ABCDEF"` used by
`net/url` escaping. -/
def upperHex (n : Nat) : Char := "0123456789ABCDEF".data.getD n '0'

/-- `net/url.shouldEscape` for `encodeQueryComponent`: alphanumeric bytes
and `-`, `_`, `.`, `~` stay unescaped, every other byte is escaped. -/
def shouldEscapeQuery (c : Nat) : Bool :=
  !((97 ≤ c && c ≤ 122) || (65 ≤ c && c ≤ 90) || (48 ≤ c && c ≤ 57) ||
    c == 45 || c == 95 || c == 46 || c == 126)

/-- Escaping of a single byte by `net/url.escape` in query-component mode:
unescaped bytes pass through, a space becomes `+`, anything else becomes
`%XX` with uppercase hex digits. -/
def queryEscapeByte (c : Nat) : List Char :=
  if !shouldEscapeQuery c then [Char.ofNat c]
  else if c == 32 then ['+']
  else ['%', upperHex (c / 16), upperHex (c % 16)]

/-- The UTF-8 encoding of one code point as a list of byte values: Go
strings are byte sequences in UTF-8, and `net/url` escaping walks those
bytes. -/
def utf8Bytes (c : Char) : List Nat :=
  let n := c.toNat
  if n < 128 then [n]
  else if n < 2048 then [192 + n / 64, 128 + n % 64]
  else if n < 65536 then [224 + n / 4096, 128 + n / 64 % 64, 128 + n % 64]
  else [240 + n / 262144, 128 + n / 4096 % 64, 128 + n / 64 % 64, 128 + n % 64]

/-- Go `url.QueryEscape`: escape every byte of the UTF-8 encoding of `s`
in query-component mode. -/
def QueryEscape (s : String) : String :=
  String.mk (((s.data.map utf8Bytes).flatten.map queryEscapeByte).flatten)

/-- Lines 244-255 of `provider.go`: if the configured session duration is
0 and the `TENCENTCLOUD_ASSUME_ROLE_SESSION_DURATION` environment value is
non-empty, parse it with `strconv.Atoi` (propagating its error) and turn a
parsed 0 into 7200; otherwise keep the configured value unchanged. -/
def resolveSessionDuration (sessionDuration : Int) (env : String) :
    Except GoError Int :=
  if sessionDuration = 0 then
    if env ≠ "" then
      match goAtoi env with
      | Except.error e => Except.error e
      | Except.ok v =>
        if v = 0 then Except.ok 7200 else Except.ok v
    else Except.ok sessionDuration
  else Except.ok sessionDuration

/-- Lines 257-265 of `provider.go`: populate a fresh `AssumeRoleRequest`
with the role ARN, session name, the duration converted with `uint64(...)`,
and — only when the configured policy is non-empty — the
`url.QueryEscape`d policy. -/
def buildAssumeRoleRequest (assumeRole : AssumeRoleBlock) (duration : Int) :
    AssumeRoleRequest :=
  { NewAssumeRoleRequest with
      RoleArn := some assumeRole.role_arn
      RoleSessionName := some assumeRole.session_name
      DurationSeconds := some (uint64OfInt duration)
      Policy :=
        if assumeRole.policy ≠ "" then some (QueryEscape assumeRole.policy)
        else none }

/-- Lines 224-234 of `provider.go`: the "standard client", a
`TencentCloudClient` whose connection holds the configured base
credential triple, region, protocol and domain. -/
def standardClient (d : ResourceData) : TencentCloudClient :=
  { apiV3Conn :=
      { credential := ⟨d.secret_id, d.secret_key, d.security_token⟩
        region := d.region
        protocol := d.protocol
        domain := d.domain } }

/-- `providerConfigure` (`provider.go` lines 215-280).  `env` is the value
of `TENCENTCLOUD_ASSUME_ROLE_SESSION_DURATION` (`""` when absent, as with
`os.Getenv`), and `exchange` is the STS client's `AssumeRole` network
call.  Returns the Go `(interface{}, error)` pair as an `Except`, paired
with the trace of rate-limiter and exchange events in execution order. -/
def providerConfigure (d : ResourceData) (env : String)
    (exchange : AssumeRoleRequest → Except GoError STSCredentials) :
    Except GoError TencentCloudClient × List Event :=
  -- standard client
  let tcClient : TencentCloudClient := standardClient d
  -- assume role client
  let assumeRoleList := d.assume_role
  if assumeRoleList.length = 1 then
    let assumeRole := assumeRoleList.getD 0 default
    let assumeRoleArn := assumeRole.role_arn
    let assumeRoleSessionName := assumeRole.session_name
    let assumeRoleSessionDuration := assumeRole.session_duration
    let assumeRolePolicy := assumeRole.policy
    match resolveSessionDuration assumeRoleSessionDuration env with
    | Except.error e => (Except.error e, [])
    | Except.ok duration =>
      -- applying STS credentials
      let request := buildAssumeRoleRequest
        ⟨assumeRoleArn, assumeRoleSessionName, assumeRoleSessionDuration,
          assumeRolePolicy⟩ duration
      let events := [Event.ratelimitCheck request.GetAction,
        Event.exchangeCall request]
      match exchange request with
      | Except.error e => (Except.error e, events)
      | Except.ok creds =>
        -- using STS credentials
        (Except.ok { tcClient with
          apiV3Conn := { tcClient.apiV3Conn with
            credential :=
              ⟨creds.TmpSecretId, creds.TmpSecretKey, creds.Token⟩ } },
          events)
  else (Except.ok tcClient, [])

/-- The `DurationSeconds` values of the exchange requests dispatched in a
trace, in order. -/
def sentDurations (tr : List Event) : List (Option Nat) :=
  tr.filterMap (fun e =>
    match e with
    | Event.exchangeCall r => some r.DurationSeconds
    | _ => none)

/-- The exchange requests dispatched in a trace, in order. -/
def sentRequests (tr : List Event) : List AssumeRoleRequest :=
  tr.filterMap (fun e =>
    match e with
    | Event.exchangeCall r => some r
    | _ => none)

/-- Modelled from the spec: `validateIntegerInRange(0, 43200)`, the schema
`ValidateFunc` attached to `session_duration` (referenced at
`provider.go:186` but defined in a repository file not present under
`src/`): accepts exactly the integers in `[min, max]`. -/
def validateIntegerInRange (min max v : Int) : Bool :=
  decide (min ≤ v) && decide (v ≤ max)


/-! ### Concrete inputs used in witnesses and counterexamples -/

/-- An exchange oracle that always succeeds with a fixed temporary triple. -/
def exchangeOk : AssumeRoleRequest → Except GoError STSCredentials :=
  fun _ => Except.ok ⟨"id2", "key2", "tok2"⟩

/-- An exchange oracle that always fails. -/
def exchangeFail : AssumeRoleRequest → Except GoError STSCredentials :=
  fun _ => Except.error (GoError.exchange "sts unreachable")

/-- A configuration with one assume-role block whose `session_duration` is 0. -/
def dZero : ResourceData :=
  ⟨"id", "key", "tok", "ap-guangzhou", "HTTPS", "", [⟨"arn", "sn", 0, ""⟩]⟩

/-- A configuration with no assume-role block. -/
def dNoRole : ResourceData :=
  ⟨"id", "key", "tok", "ap-guangzhou", "HTTPS", "", []⟩

/-- A configuration whose assume-role set has two entries. -/
def dTwo : ResourceData :=
  ⟨"id", "key", "tok", "r", "HTTPS", "",
    [⟨"arn", "sn", 300, ""⟩, ⟨"arn2", "sn2", 600, ""⟩]⟩

/-- A configuration whose single assume-role block carries a policy. -/
def dPolicy : ResourceData :=
  ⟨"id", "key", "tok", "r", "HTTPS", "", [⟨"arn", "sn", 2000, "a b"⟩]⟩

/-! ### Helper lemmas -/

theorem resolve_env_ok {env : String} {v : Int} (henv : env ≠ "")
    (hv : goAtoi env = Except.ok v) (hnz : v ≠ 0) :
    resolveSessionDuration 0 env = Except.ok v := by
  simp [resolveSessionDuration, henv, hv, hnz]

theorem resolve_env_zero {env : String} (henv : env ≠ "")
    (hv : goAtoi env = Except.ok 0) :
    resolveSessionDuration 0 env = Except.ok 7200 := by
  simp [resolveSessionDuration, henv, hv]

theorem resolve_env_err {env : String} {e : GoError} (henv : env ≠ "")
    (hv : goAtoi env = Except.error e) :
    resolveSessionDuration 0 env = Except.error e := by
  simp [resolveSessionDuration, henv, hv]

theorem providerConfigure_resolved {d : ResourceData} {env : String}
    {exchange : AssumeRoleRequest → Except GoError STSCredentials}
    {block : AssumeRoleBlock} {dur : Int}
    (hlist : d.assume_role = [block])
    (hdur : resolveSessionDuration block.session_duration env = Except.ok dur) :
    providerConfigure d env exchange =
      (match exchange (buildAssumeRoleRequest block dur) with
       | Except.error e => (Except.error e,
           [Event.ratelimitCheck "AssumeRole",
            Event.exchangeCall (buildAssumeRoleRequest block dur)])
       | Except.ok creds => (Except.ok
           { standardClient d with
               apiV3Conn := { (standardClient d).apiV3Conn with
                 credential :=
                   ⟨creds.TmpSecretId, creds.TmpSecretKey, creds.Token⟩ } },
           [Event.ratelimitCheck "AssumeRole",
            Event.exchangeCall (buildAssumeRoleRequest block dur)])) := by
  simp [providerConfigure, hlist, hdur, AssumeRoleRequest.GetAction]

/-! ### Claims -/

/-- C1: the claim states that with one assume-role block,
`session_duration = 0` and the `TENCENTCLOUD_ASSUME_ROLE_SESSION_DURATION`
environment variable absent, the outgoing `AssumeRole` request has
`DurationSeconds = 7200`.  Evaluating `providerConfigure` at exactly such a
configuration shows the request is dispatched with `DurationSeconds = 0`:
the `7200` fallback of lines 251-253 is nested inside the env-present
branch, so an absent variable leaves the duration at 0, contradicting the
schema's own documented default of 7200 seconds. -/
theorem C1_env_absent_sends_duration_zero :
    sentDurations (providerConfigure dZero "" exchangeOk).2 = [some 0] ∧
    sentDurations (providerConfigure dZero "" exchangeOk).2 ≠ [some 7200] :=
  ⟨rfl, by decide⟩

/-- C2 counterexample: on a configuration whose assume-role set has two
entries, `providerConfigure` performs no role assumption at all — it
returns the standard base-credential client and the event trace is empty
(no rate-limit check, no exchange call) — refuting the claim that the
assume-role path is activated using the first entry. -/
theorem C2_counterexample :
    providerConfigure dTwo "" exchangeOk =
      (Except.ok (standardClient dTwo), []) := rfl

/-- C2 amended: when the assume-role set has more than one entry,
`providerConfigure` does not activate the assume-role path: the guard at
line 238 requires cardinality exactly 1, so the base-credential standard
client is returned with no exchange call. -/
theorem C2_more_than_one_entry_skips_assume_role
    (d : ResourceData) (env : String)
    (exchange : AssumeRoleRequest → Except GoError STSCredentials)
    (h : 1 < d.assume_role.length) :
    providerConfigure d env exchange = (Except.ok (standardClient d), []) := by
  simp only [providerConfigure]
  rw [if_neg (by omega)]

theorem C2_more_than_one_entry_skips_assume_role_witness :
    providerConfigure dTwo "x" exchangeFail =
      (Except.ok (standardClient dTwo), []) :=
  C2_more_than_one_entry_skips_assume_role dTwo "x" exchangeFail (by decide)

/-- C3: with one assume-role block and `session_duration = 0` and the
environment variable set (non-empty): a value parsing to a non-zero
integer becomes the request's `DurationSeconds`; an unparsable value makes
`providerConfigure` return that parse error with no rate-limit check and
no exchange call; a value parsing to zero yields 7200. -/
theorem C3_env_override_behaviour
    (d : ResourceData) (env : String)
    (exchange : AssumeRoleRequest → Except GoError STSCredentials)
    (block : AssumeRoleBlock)
    (hlist : d.assume_role = [block]) (hzero : block.session_duration = 0)
    (henv : env ≠ "") :
    (∀ v : Int, goAtoi env = Except.ok v → v ≠ 0 →
       sentDurations (providerConfigure d env exchange).2 =
         [some (uint64OfInt v)]) ∧
    (∀ e : GoError, goAtoi env = Except.error e →
       providerConfigure d env exchange = (Except.error e, [])) ∧
    (goAtoi env = Except.ok 0 →
       sentDurations (providerConfigure d env exchange).2 = [some 7200]) := by
  refine ⟨?_, ?_, ?_⟩
  · intro v hv hnz
    have hres : resolveSessionDuration block.session_duration env =
        Except.ok v := hzero ▸ resolve_env_ok henv hv hnz
    rw [providerConfigure_resolved hlist hres]
    cases hex : exchange (buildAssumeRoleRequest block v) <;>
      simp [sentDurations, buildAssumeRoleRequest]
  · intro e he
    have hres : resolveSessionDuration block.session_duration env =
        Except.error e := hzero ▸ resolve_env_err henv he
    simp [providerConfigure, hlist, hres]
  · intro hv
    have hres : resolveSessionDuration block.session_duration env =
        Except.ok 7200 := hzero ▸ resolve_env_zero henv hv
    rw [providerConfigure_resolved hlist hres]
    cases hex : exchange (buildAssumeRoleRequest block 7200) <;>
      simp [sentDurations, buildAssumeRoleRequest, uint64OfInt]

theorem C3_env_override_behaviour_witness :
    sentDurations (providerConfigure dZero "3600" exchangeOk).2 =
      [some (uint64OfInt 3600)] :=
  (C3_env_override_behaviour dZero "3600" exchangeOk ⟨"arn", "sn", 0, ""⟩
    rfl rfl (by decide)).1 3600 rfl (by decide)

/-- C4: for a configuration whose assume-role set is empty,
`providerConfigure` returns the client whose credential is exactly the
configured (secret_id, secret_key, security_token) triple, with an empty
event trace — no rate-limit check and no `AssumeRole` exchange call. -/
theorem C4_no_assume_role_base_credential
    (d : ResourceData) (env : String)
    (exchange : AssumeRoleRequest → Except GoError STSCredentials)
    (h : d.assume_role = []) :
    providerConfigure d env exchange =
      (Except.ok ⟨⟨⟨d.secret_id, d.secret_key, d.security_token⟩,
         d.region, d.protocol, d.domain⟩⟩, []) := by
  simp [providerConfigure, h, standardClient]

theorem C4_no_assume_role_base_credential_witness :
    providerConfigure dNoRole "" exchangeOk =
      (Except.ok ⟨⟨⟨"id", "key", "tok"⟩, "ap-guangzhou", "HTTPS", ""⟩⟩, []) :=
  C4_no_assume_role_base_credential dNoRole "" exchangeOk rfl

/-- C5: when the assume-role path is active and the exchange succeeds with
(TmpSecretId, TmpSecretKey, Token), the returned client's credential is
exactly that new triple — the only other fields of the handle are the
configured region, protocol and domain, so no base-credential field
survives and no merging of old and new credentials occurs. -/
theorem C5_success_replaces_credential
    (d : ResourceData) (env : String)
    (exchange : AssumeRoleRequest → Except GoError STSCredentials)
    (block : AssumeRoleBlock) (dur : Int) (creds : STSCredentials)
    (hlist : d.assume_role = [block])
    (hdur : resolveSessionDuration block.session_duration env = Except.ok dur)
    (hex : exchange (buildAssumeRoleRequest block dur) = Except.ok creds) :
    providerConfigure d env exchange =
      (Except.ok ⟨⟨⟨creds.TmpSecretId, creds.TmpSecretKey, creds.Token⟩,
         d.region, d.protocol, d.domain⟩⟩,
       [Event.ratelimitCheck "AssumeRole",
        Event.exchangeCall (buildAssumeRoleRequest block dur)]) := by
  rw [providerConfigure_resolved hlist hdur, hex]
  rfl

theorem C5_success_replaces_credential_witness :
    providerConfigure dZero "" exchangeOk =
      (Except.ok ⟨⟨⟨"id2", "key2", "tok2"⟩, "ap-guangzhou", "HTTPS", ""⟩⟩,
       [Event.ratelimitCheck "AssumeRole",
        Event.exchangeCall (buildAssumeRoleRequest ⟨"arn", "sn", 0, ""⟩ 0)]) :=
  C5_success_replaces_credential dZero "" exchangeOk ⟨"arn", "sn", 0, ""⟩ 0
    ⟨"id2", "key2", "tok2"⟩ rfl rfl rfl

/-- C6: for an active assume-role configuration (after the session
duration resolves), the single dispatched request is the built request,
whose `Policy` field is omitted (`none`) when the configured policy is the
empty string and is the `url.QueryEscape`d policy when it is non-empty. -/
theorem C6_policy_escaping
    (d : ResourceData) (env : String)
    (exchange : AssumeRoleRequest → Except GoError STSCredentials)
    (block : AssumeRoleBlock) (dur : Int)
    (hlist : d.assume_role = [block])
    (hdur : resolveSessionDuration block.session_duration env = Except.ok dur) :
    sentRequests (providerConfigure d env exchange).2 =
      [buildAssumeRoleRequest block dur] ∧
    (block.policy = "" → (buildAssumeRoleRequest block dur).Policy = none) ∧
    (block.policy ≠ "" →
      (buildAssumeRoleRequest block dur).Policy =
        some (QueryEscape block.policy)) := by
  refine ⟨?_, fun hp => ?_, fun hp => ?_⟩
  · rw [providerConfigure_resolved hlist hdur]
    cases hex : exchange (buildAssumeRoleRequest block dur) <;>
      simp [sentRequests]
  · simp [buildAssumeRoleRequest, hp]
  · simp [buildAssumeRoleRequest, hp]

theorem C6_policy_escaping_witness :
    sentRequests (providerConfigure dPolicy "" exchangeOk).2 =
      [buildAssumeRoleRequest ⟨"arn", "sn", 2000, "a b"⟩ 2000] ∧
    (buildAssumeRoleRequest ⟨"arn", "sn", 2000, "a b"⟩ 2000).Policy =
      some "a+b" := by
  have h := C6_policy_escaping dPolicy "" exchangeOk
    ⟨"arn", "sn", 2000, "a b"⟩ 2000 rfl rfl
  exact ⟨h.1, by rw [h.2.2 (by decide)]; decide⟩

/-- C7: when the assume-role path is active and the exchange call returns
an error, `providerConfigure` returns that very error with no client
handle, and the trace shows exactly one exchange dispatch — the error is
surfaced as-is and no retry happens inside the function. -/
theorem C7_exchange_error_fatal
    (d : ResourceData) (env : String)
    (exchange : AssumeRoleRequest → Except GoError STSCredentials)
    (block : AssumeRoleBlock) (dur : Int) (e : GoError)
    (hlist : d.assume_role = [block])
    (hdur : resolveSessionDuration block.session_duration env = Except.ok dur)
    (hex : exchange (buildAssumeRoleRequest block dur) = Except.error e) :
    providerConfigure d env exchange =
      (Except.error e,
       [Event.ratelimitCheck "AssumeRole",
        Event.exchangeCall (buildAssumeRoleRequest block dur)]) := by
  rw [providerConfigure_resolved hlist hdur, hex]

theorem C7_exchange_error_fatal_witness :
    providerConfigure dZero "" exchangeFail =
      (Except.error (GoError.exchange "sts unreachable"),
       [Event.ratelimitCheck "AssumeRole",
        Event.exchangeCall (buildAssumeRoleRequest ⟨"arn", "sn", 0, ""⟩ 0)]) :=
  C7_exchange_error_fatal dZero "" exchangeFail ⟨"arn", "sn", 0, ""⟩ 0
    (GoError.exchange "sts unreachable") rfl rfl rfl

/-- Any execution trace of `providerConfigure` is either empty or consists
of exactly the rate-limit check for the built request's action followed by
that request's exchange dispatch. -/
theorem providerConfigure_trace_shape
    (d : ResourceData) (env : String)
    (exchange : AssumeRoleRequest → Except GoError STSCredentials) :
    (providerConfigure d env exchange).2 = [] ∨
    ∃ r : AssumeRoleRequest, (providerConfigure d env exchange).2 =
      [Event.ratelimitCheck r.GetAction, Event.exchangeCall r] := by
  by_cases hlen : d.assume_role.length = 1
  · obtain ⟨block, hlist⟩ : ∃ b, d.assume_role = [b] := by
      match d.assume_role, hlen with
      | [b], _ => exact ⟨b, rfl⟩
    cases hdur : resolveSessionDuration block.session_duration env with
    | error e =>
      left
      simp [providerConfigure, hlist, hdur]
    | ok dur =>
      right
      refine ⟨buildAssumeRoleRequest block dur, ?_⟩
      rw [providerConfigure_resolved hlist hdur]
      cases hex : exchange (buildAssumeRoleRequest block dur) <;> rfl
  · left
    simp only [providerConfigure]
    rw [if_neg hlen]

/-- C8: in every execution of `providerConfigure`, whenever the trace has
an exchange dispatch at position `i`, the rate-limiter pre-flight check
keyed by that request's action name sits at position `i - 1`: the check
always precedes the exchange and the exchange never happens unchecked. -/
theorem C8_ratelimit_before_exchange
    (d : ResourceData) (env : String)
    (exchange : AssumeRoleRequest → Except GoError STSCredentials)
    (i : Nat) (req : AssumeRoleRequest)
    (h : (providerConfigure d env exchange).2[i]? =
      some (Event.exchangeCall req)) :
    0 < i ∧ (providerConfigure d env exchange).2[i - 1]? =
      some (Event.ratelimitCheck req.GetAction) := by
  rcases providerConfigure_trace_shape d env exchange with h0 | ⟨r, hr⟩
  · rw [h0] at h
    simp at h
  · rw [hr] at h ⊢
    match i, h with
    | 1, h =>
      have : r = req := by simpa using h
      subst this
      exact ⟨Nat.one_pos, rfl⟩

theorem C8_ratelimit_before_exchange_witness :
    0 < 1 ∧ (providerConfigure dZero "" exchangeOk).2[1 - 1]? =
      some (Event.ratelimitCheck
        (buildAssumeRoleRequest ⟨"arn", "sn", 0, ""⟩ 0).GetAction) :=
  C8_ratelimit_before_exchange dZero "" exchangeOk 1
    (buildAssumeRoleRequest ⟨"arn", "sn", 0, ""⟩ 0) rfl

/-- C9: the `[0, 43200]` range check (the schema validator on
`session_duration`) is not applied to the environment-sourced override:
with `session_duration = 0` and an environment value parsing to any
non-zero integer — even one the validator rejects — `providerConfigure`
dispatches the request with `DurationSeconds` equal to the unsigned
mod-2^64 conversion of that integer (so `-1` becomes 2^64 - 1). -/
theorem C9_env_override_not_range_checked
    (d : ResourceData) (env : String)
    (exchange : AssumeRoleRequest → Except GoError STSCredentials)
    (block : AssumeRoleBlock) (v : Int)
    (hlist : d.assume_role = [block]) (hzero : block.session_duration = 0)
    (henv : env ≠ "") (hv : goAtoi env = Except.ok v) (hnz : v ≠ 0)
    (_hout : validateIntegerInRange 0 43200 v = false) :
    sentDurations (providerConfigure d env exchange).2 =
      [some ((v % 2 ^ 64).toNat)] := by
  have hres : resolveSessionDuration block.session_duration env =
      Except.ok v := hzero ▸ resolve_env_ok henv hv hnz
  rw [providerConfigure_resolved hlist hres]
  cases hex : exchange (buildAssumeRoleRequest block v) <;>
    simp [sentDurations, buildAssumeRoleRequest, uint64OfInt]

theorem C9_env_override_not_range_checked_witness :
    sentDurations (providerConfigure dZero "-1" exchangeOk).2 =
      [some 18446744073709551615] := by
  have h := C9_env_override_not_range_checked dZero "-1" exchangeOk
    ⟨"arn", "sn", 0, ""⟩ (-1) rfl rfl (by decide) rfl (by decide) (by decide)
  rw [h]; decide

/-- C10: whatever the outcome of the assume-role path, whenever
`providerConfigure` returns a client, that client's region, protocol and
domain are exactly the configured values — only the credential field is
ever replaced. -/
theorem C10_frame_region_protocol_domain
    (d : ResourceData) (env : String)
    (exchange : AssumeRoleRequest → Except GoError STSCredentials)
    (cl : TencentCloudClient)
    (h : (providerConfigure d env exchange).1 = Except.ok cl) :
    cl.apiV3Conn.region = d.region ∧ cl.apiV3Conn.protocol = d.protocol ∧
      cl.apiV3Conn.domain = d.domain := by
  by_cases hlen : d.assume_role.length = 1
  · obtain ⟨block, hlist⟩ : ∃ b, d.assume_role = [b] := by
      match d.assume_role, hlen with
      | [b], _ => exact ⟨b, rfl⟩
    cases hdur : resolveSessionDuration block.session_duration env with
    | error e =>
      simp [providerConfigure, hlist, hdur] at h
    | ok dur =>
      rw [providerConfigure_resolved hlist hdur] at h
      cases hex : exchange (buildAssumeRoleRequest block dur) with
      | error e => rw [hex] at h; simp at h
      | ok creds =>
        rw [hex] at h
        simp only [standardClient] at h
        cases h
        exact ⟨rfl, rfl, rfl⟩
  · simp only [providerConfigure] at h
    rw [if_neg hlen] at h
    cases h
    exact ⟨rfl, rfl, rfl⟩

theorem C10_frame_region_protocol_domain_witness :
    (standardClient dNoRole).apiV3Conn.region = dNoRole.region ∧
    (standardClient dNoRole).apiV3Conn.protocol = dNoRole.protocol ∧
    (standardClient dNoRole).apiV3Conn.domain = dNoRole.domain :=
  C10_frame_region_protocol_domain dNoRole "" exchangeOk
    (standardClient dNoRole) rfl

end Xac
